import Mathlib

/-!
Shallow embedding of `src/ev3.rs` (and the glue in `src/main.rs`) of the
`rust-completion-test` repository: a typed attribute-access layer
(`Attribute`, `Driver`, the `Device` trait) over per-device pseudo-files.

Modelling conventions:
* The ambient filesystem is a map from paths to current file contents
  (`FileSystem`).  Operations that could read the filesystem receive it as an
  explicit argument; operations that could write return, next to their
  `Ev3Result`, the list of raw texts they write to their file (the write
  trace).  The Rust bodies in this repository never actually read or write the
  file (they are placeholders), and the embedding reflects that literally.
* A Rust panic (`.expect(..)`) is modelled by returning `none`; `Option.some`
  is normal return.  Fallible functions returning `Ev3Result<T>` become
  `Except Ev3Error T`.
* `Rc<RefCell<File>>` sharing: cloning an `Attribute` shares the same
  underlying `File`, so `clone` is the identity on the modelled value.
* Rust's `i32::from_str` is modelled by `i32.from_str`, including its error
  messages as produced by `ParseIntError`'s `Display`.
-/

namespace Ev3

/-- The ambient filesystem state: each path maps to the current textual
contents of the file at that path, or `none` when no such file exists. -/
def FileSystem : Type := String → Option String

/-- An open OS file handle; we record the path it was opened on. -/
structure File where
  path : String
deriving DecidableEq

/-- Failures of the underlying OS `open`/`read`/`write` calls
(`std::io::Error`).  `invalidArgument` is `EINVAL`, which Rust's
`OpenOptions::open` raises when no access mode (read/write/append) was set;
`notFound` is `ENOENT`. -/
inductive IoError where
  | invalidArgument
  | notFound (path : String)
deriving DecidableEq

/-- The `Display` rendering of an `std::io::Error` (what `format!("{}", err)`
produces). -/
def IoError.display : IoError → String
  | .invalidArgument => "Invalid argument (os error 22)"
  | .notFound _ => "No such file or directory (os error 2)"

/-- `std::fs::OpenOptions`: the subset of flags relevant to access-mode
checking (`read`, `write`, `append`), all `false` by default. -/
structure OpenOptions where
  read : Bool
  write : Bool
  append : Bool
deriving DecidableEq

/-- `OpenOptions::new()`: every flag defaults to `false`. -/
def OpenOptions.new : OpenOptions := ⟨false, false, false⟩

/-- Rust `sys::unix::fs::OpenOptions::get_access_mode`: with neither `read`,
`write` nor `append` set, `open` fails with `EINVAL` before ever touching the
filesystem. -/
def OpenOptions.access_mode (o : OpenOptions) : Except IoError Unit :=
  match o.read, o.write, o.append with
  | false, false, false => .error IoError.invalidArgument
  | _, _, _ => .ok ()

/-- `OpenOptions::open(path)`: check the access mode, then look the path up in
the filesystem; a missing path is `ENOENT`. -/
def OpenOptions.open_path (o : OpenOptions) (fs : FileSystem) (path : String) :
    Except IoError File :=
  match o.access_mode with
  | .error e => .error e
  | .ok _ =>
    match fs path with
    | some _ => .ok ⟨path⟩
    | none => .error (IoError.notFound path)

/-- `Ev3Error` (src/ev3.rs:29-33): a single variant carrying a message. -/
inductive Ev3Error where
  | InternalError (msg : String)
deriving DecidableEq

/-- `Ev3Result<T>` (src/ev3.rs:35). -/
abbrev Ev3Result (T : Type) : Type := Except Ev3Error T

instance {ε α : Type} [DecidableEq ε] [DecidableEq α] :
    DecidableEq (Except ε α) := fun x y =>
  match x, y with
  | .ok a, .ok b =>
    if h : a = b then .isTrue (by rw [h])
    else .isFalse (fun hc => h (Except.ok.inj hc))
  | .error a, .error b =>
    if h : a = b then .isTrue (by rw [h])
    else .isFalse (fun hc => h (Except.error.inj hc))
  | .ok _, .error _ => .isFalse Except.noConfusion
  | .error _, .ok _ => .isFalse Except.noConfusion

/-- `impl From<std::io::Error> for Ev3Error` (src/ev3.rs:37-43): wraps the
error's `Display` rendering in `InternalError`. -/
def Ev3Error.fromIoError (e : IoError) : Ev3Error :=
  .InternalError e.display

/-- `Attribute` (src/ev3.rs:61-64): wraps one shared open file handle
(`Rc<RefCell<File>>`). -/
structure Attribute where
  file : File
deriving DecidableEq

/-- `Attribute::clone` (derived): clones the `Rc`, sharing the same underlying
`File`, hence the identity on the modelled value. -/
def Attribute.clone (a : Attribute) : Attribute := a

/-- `Driver` (src/ev3.rs:6-11); the `RefCell<HashMap<..>>` attribute cache is
modelled as an association list keyed by attribute name. -/
structure Driver where
  class_name : String
  name : String
  attributes : List (String × Attribute)

/-- `Driver::new()` (src/ev3.rs:14-20): both identity strings are hardcoded to
`"a"` and the attribute cache starts empty. -/
def Driver.new : Driver :=
  { class_name := "a", name := "a", attributes := [] }

/-- `Driver::get_attribute` (src/ev3.rs:22-25): borrow the cache, look the
name up, and `.expect("Internal error in the attribute map")` the result —
i.e. panic (modelled as `none`) when the name is absent — then clone the
cached attribute.  The body contains no call to `Attribute::new` and no
insertion into the cache. -/
def Driver.get_attribute (d : Driver) (attribute_name : String) :
    Option Attribute :=
  match d.attributes.lookup attribute_name with
  | some attr => some attr.clone
  | none => none

/-- Number of calls to `Attribute::new` (the only file-open operation)
performed during one call of `Driver::get_attribute`.  The body
(src/ev3.rs:22-25) consists of a borrow, a map lookup, an `.expect` and a
`.clone`; it contains no call to `Attribute::new`, so the count is `0` for
every driver and every name. -/
def Driver.get_attribute_opens (d : Driver) (attribute_name : String) : Nat :=
  0

/-- `Attribute::new` (src/ev3.rs:92-97): ignores all three identifier
arguments and runs `OpenOptions::new().open(&"a")?`; since no access mode is
set, the open fails with `EINVAL` and the `?` converts the `io::Error` into
`Ev3Error` via `From`. -/
def Attribute.new (fs : FileSystem)
    (class_name name attribute_name : String) : Ev3Result Attribute :=
  match OpenOptions.new.open_path fs "a" with
  | .error e => .error (Ev3Error.fromIoError e)
  | .ok file => .ok ⟨file⟩

/-- `Attribute::get_str` (src/ev3.rs:99-101): a placeholder that returns the
literal string `"a"` without reading the file (the filesystem argument is the
ambient state a real read would consult; the body ignores it). -/
def Attribute.get_str (a : Attribute) (fs : FileSystem) : Ev3Result String :=
  .ok "a"

/-- `Attribute::set_str` (src/ev3.rs:103-105): a placeholder that returns
`Ok(())` and performs no write — its write trace is empty. -/
def Attribute.set_str (a : Attribute) (value : String) :
    Ev3Result Unit × List String :=
  (.ok (), [])

/-- `Attribute::get::<T>` (src/ev3.rs:107-119): read via `get_str`, then parse
with `T::from_str` (passed as `parse`; its error is the `Display` string of
the underlying parse failure, wrapped into `InternalError` exactly as
`format!("{}", e)` does). -/
def Attribute.get {T : Type} (a : Attribute) (fs : FileSystem)
    (parse : String → Except String T) : Ev3Result T :=
  match a.get_str fs with
  | .error e => .error e
  | .ok value =>
    match parse value with
    | .ok v => .ok v
    | .error e => .error (Ev3Error.InternalError e)

/-- `Attribute::set::<T>` (src/ev3.rs:121-126): a placeholder that ignores the
value (it never even formats it via `to_string`) and returns `Ok(())` with an
empty write trace. -/
def Attribute.set {T : Type} (a : Attribute) (to_string : T → String)
    (value : T) : Ev3Result Unit × List String :=
  (.ok (), [])

/-- `Attribute::set_str_slice` (src/ev3.rs:128-131): a placeholder that
returns `Ok(())` and performs no write — its write trace is empty. -/
def Attribute.set_str_slice (a : Attribute) (value : String) :
    Ev3Result Unit × List String :=
  (.ok (), [])

/-- `Attribute::get_vec` (src/ev3.rs:133-135): a placeholder returning the
literal one-element vector `["a"]`, without reading the file. -/
def Attribute.get_vec (a : Attribute) (fs : FileSystem) :
    Ev3Result (List String) :=
  .ok ["a"]

/-- The `Device` trait (src/ev3.rs:66-84): any implementor supplies
`get_attribute`; the four higher-level operations below are the trait's
provided methods. -/
structure Device where
  get_attribute : String → Attribute

/-- `Device::get_address` (src/ev3.rs:69-71):
`self.get_attribute("address").get()` at `T = String` (whose `FromStr` is
infallible). -/
def Device.get_address (d : Device) (fs : FileSystem) : Ev3Result String :=
  (d.get_attribute "address").get fs (fun s => .ok s)

/-- `Device::set_command` (src/ev3.rs:73-75):
`self.get_attribute("command").set_str_slice(command)`. -/
def Device.set_command (d : Device) (command : String) :
    Ev3Result Unit × List String :=
  (d.get_attribute "command").set_str_slice command

/-- `Device::get_commands` (src/ev3.rs:77-79):
`self.get_attribute("commands").get_vec()`. -/
def Device.get_commands (d : Device) (fs : FileSystem) :
    Ev3Result (List String) :=
  (d.get_attribute "commands").get_vec fs

/-- `Device::get_driver_name` (src/ev3.rs:81-83):
`self.get_attribute("driver_name").get()` at `T = String`. -/
def Device.get_driver_name (d : Device) (fs : FileSystem) : Ev3Result String :=
  (d.get_attribute "driver_name").get fs (fun s => .ok s)

/-- Decimal digit value of a character, as accepted by Rust's
`i32::from_str`. -/
def digitValue (c : Char) : Option Nat :=
  if '0' ≤ c ∧ c ≤ '9' then some (c.toNat - '0'.toNat) else none

/-- Accumulate a digit string into a natural number; `none` on the first
non-digit character. -/
def parseDigitsAux : List Char → Nat → Option Nat
  | [], acc => some acc
  | c :: rest, acc =>
    match digitValue c with
    | some d => parseDigitsAux rest (acc * 10 + d)
    | none => none

/-- Largest `i32` value. -/
def i32.MAX : Int := 2147483647

/-- Smallest `i32` value. -/
def i32.MIN : Int := -2147483648

/-- Rust's `<i32 as FromStr>::from_str`: optional sign, decimal digits, range
check; the error strings are the `Display` renderings of the corresponding
`ParseIntError` kinds. -/
def i32.from_str (s : String) : Except String Int :=
  match s.data with
  | [] => .error "cannot parse integer from empty string"
  | c :: rest =>
    let signed : Option (Bool × List Char) :=
      if c = '+' then
        if rest.isEmpty then none else some (false, rest)
      else if c = '-' then
        if rest.isEmpty then none else some (true, rest)
      else some (false, c :: rest)
    match signed with
    | none => .error "invalid digit found in string"
    | some (neg, digits) =>
      match parseDigitsAux digits 0 with
      | none => .error "invalid digit found in string"
      | some n =>
        if neg then
          if -(n : Int) < i32.MIN then
            .error "number too small to fit in target type"
          else .ok (-(n : Int))
        else
          if (n : Int) > i32.MAX then
            .error "number too large to fit in target type"
          else .ok (n : Int)

/-- Overwrite (not append) the contents of `path` with `text`. -/
def FileSystem.write (fs : FileSystem) (path text : String) : FileSystem :=
  fun p => if p = path then some text else fs p

/-- Apply a write trace to the filesystem at a given path, in order. -/
def FileSystem.applyWrites (fs : FileSystem) (path : String) :
    List String → FileSystem
  | [] => fs
  | w :: ws => FileSystem.applyWrites (fs.write path w) path ws

/-- The round-trip experiment of the spec: `set(value)` on an attribute, the
resulting writes applied to the filesystem with no external change in
between, then `get()` at `T = i32`. -/
def Attribute.set_then_get (a : Attribute) (fs : FileSystem) (v : Int) :
    Ev3Result Int :=
  match a.set (fun n : Int => toString n) v with
  | (.error e, _) => .error e
  | (.ok _, ws) => a.get (fs.applyWrites a.file.path ws) i32.from_str

/-- A concrete attribute handle on path `"a"`, for concrete instantiations. -/
def attr0 : Attribute := ⟨⟨"a"⟩⟩

/-- A concrete filesystem in which the attribute file contains `"42"`. -/
def fs42 : FileSystem :=
  fun p => if p = "a" then some "42" else none

/-- A concrete filesystem in which the attribute file lists three commands
separated by newlines. -/
def fsCmds : FileSystem :=
  fun p => if p = "a" then some "run-forever\nrun-to-abs-pos\nstop" else none

/-- A concrete empty filesystem: no path exists. -/
def fsEmpty : FileSystem := fun _ => none

/-- A concrete device whose every attribute resolves to `attr0`. -/
def dev0 : Device := ⟨fun _ => attr0⟩

/-- C1, counterexample: on a freshly constructed `Driver`, a first access to
the attribute `"speed"` performs zero underlying opens (not exactly one) and
panics (`none`) instead of returning an opened-and-cached handle, refuting the
claimed open-insert-return behaviour at this concrete input. -/
theorem c1_first_access_cex :
    Driver.new.get_attribute "speed" = none ∧
    Driver.get_attribute_opens Driver.new "speed" = 0 ∧
    ¬ (Driver.get_attribute_opens Driver.new "speed" = 1 ∧
       (Driver.new.get_attribute "speed").isSome) := by
  refine ⟨rfl, rfl, ?_⟩
  decide

/-- C1, amended: `Driver.get_attribute` returns a clone of the cached
`Attribute` for `name` when present and otherwise panics with an internal
error; it never calls `Attribute::open` and never inserts into the cache, so
every call — first access included — performs zero underlying opens. -/
theorem c1_get_attribute_cache_lookup_only (d : Driver) (name : String) :
    d.get_attribute name = (d.attributes.lookup name).map Attribute.clone ∧
    Driver.get_attribute_opens d name = 0 := by
  refine ⟨?_, rfl⟩
  cases h : d.attributes.lookup name <;>
    simp [Driver.get_attribute, h]

/-- C2, counterexample: on a freshly constructed `Driver` — for which every
attribute name is an ordinary missing-attribute condition — `get_attribute`
on `"value"` terminates in the `.expect` panic (modelled by `none`); no typed
error is propagated to the caller (the return type has no error channel at
all), refuting the no-panic claim at this concrete input. -/
theorem c2_get_attribute_panics_cex :
    Driver.new.get_attribute "value" = none := by
  decide

/-- C2, amended: `Driver.get_attribute` panics exactly when `name` is absent
from the cache; it never calls `Attribute::open`, so no open failure is ever
produced, propagated, or surfaced as a result value. -/
theorem c2_get_attribute_panic_iff_uncached (d : Driver) (name : String) :
    (d.get_attribute name = none ↔ d.attributes.lookup name = none) ∧
    Driver.get_attribute_opens d name = 0 := by
  refine ⟨?_, rfl⟩
  cases h : d.attributes.lookup name <;>
    simp [Driver.get_attribute, h]

/-- C3, counterexample: with the attribute file containing the raw text
`"42"`, `get::<i32>` does not return `42` (it fails, because `get_str` is a
placeholder returning the literal `"a"` instead of reading the file),
refuting the raw-content claim at this concrete input. -/
theorem c3_get_int_on_42_cex :
    ¬ (attr0.get fs42 i32.from_str = Except.ok (42 : Int)) := by
  decide

/-- C3, amended: `get::<T>` parses the string returned by `get_str` and wraps
a parse failure's message in `InternalError`; but `get_str` is a placeholder
returning `"a"` without reading the file, so the result is independent of the
filesystem contents and `get::<i32>` always fails with the parse error
`"invalid digit found in string"`, never returning `42`. -/
theorem c3_get_parses_constant_str (a : Attribute) (fs fs' : FileSystem) :
    a.get_str fs = .ok "a" ∧
    (∀ (T : Type) (parse : String → Except String T),
        a.get fs parse = a.get fs' parse) ∧
    a.get fs i32.from_str =
      .error (.InternalError "invalid digit found in string") := by
  exact ⟨rfl, fun T parse => rfl, rfl⟩

/-- C4, counterexample: `set(42)` followed by `get::<i32>()` on the same
attribute, with no external state change in between, does not return `42`
(the setter writes nothing and the getter parses the constant `"a"`),
refuting the round-trip claim at this concrete input. -/
theorem c4_round_trip_cex :
    ¬ (attr0.set_then_get fsEmpty 42 = Except.ok (42 : Int)) := by
  decide

/-- C4, amended: `set(value)` always succeeds while writing nothing (its
write trace is empty), so a subsequent `get()` parses the constant `"a"`:
for integers the round trip never returns `value`, failing instead with a
parse error. -/
theorem c4_set_noop_get_constant (a : Attribute) (fs : FileSystem) (v : Int) :
    (a.set (fun n : Int => toString n) v).snd = [] ∧
    a.set_then_get fs v =
      .error (.InternalError "invalid digit found in string") :=
  ⟨rfl, rfl⟩

/-- C5, counterexample: with the attribute file containing
`"run-forever\nrun-to-abs-pos\nstop"`, `get_vec` does not yield the three
whitespace-separated tokens, refuting the splitting claim at this concrete
input. -/
theorem c5_get_vec_cex :
    ¬ (attr0.get_vec fsCmds =
        Except.ok ["run-forever", "run-to-abs-pos", "stop"]) := by
  decide

/-- C5, amended: `get_vec` is a placeholder returning the constant
one-element sequence `["a"]` regardless of the raw file contents; no reading
or whitespace splitting takes place. -/
theorem c5_get_vec_constant (a : Attribute) (fs : FileSystem) :
    a.get_vec fs = .ok ["a"] :=
  rfl

/-- C6, confirmed: for every `(class_name, instance_name, attribute_name)` —
in particular every triple whose resolved path does not exist or cannot be
opened — `Attribute::new` fails with the typed error obtained from the
underlying `io::Error` via the `From` conversion (here `EINVAL`, since the
`OpenOptions` carry no access mode), and does not panic: the embedding is a
total function into `Ev3Result`, with no panic (`Option`) channel. -/
theorem c6_attribute_new_io_error (fs : FileSystem)
    (class_name name attribute_name : String) :
    Attribute.new fs class_name name attribute_name =
      .error (Ev3Error.fromIoError IoError.invalidArgument) :=
  rfl

/-- C7, confirmed: each provided method of the `Device` trait delegates to
the `Attribute` accessor on its conventionally-named attribute:
`get_address` reads `"address"` via `get`, `set_command` writes `"command"`
via `set_str_slice`, `get_commands` reads `"commands"` via `get_vec`, and
`get_driver_name` reads `"driver_name"` via `get`. -/
theorem c7_device_delegation (d : Device) (fs : FileSystem)
    (command : String) :
    d.get_address fs = (d.get_attribute "address").get fs (fun s => .ok s) ∧
    d.set_command command =
      (d.get_attribute "command").set_str_slice command ∧
    d.get_commands fs = (d.get_attribute "commands").get_vec fs ∧
    d.get_driver_name fs =
      (d.get_attribute "driver_name").get fs (fun s => .ok s) :=
  ⟨rfl, rfl, rfl, rfl⟩

/-- C8, counterexample: `Device::set_command("run-forever")` on a concrete
device performs zero writes to the attribute resolved for `"command"` — its
write trace is empty, not the single write `["run-forever"]` the claim
requires. -/
theorem c8_set_command_writes_nothing_cex :
    ¬ ((dev0.set_command "run-forever").snd = ["run-forever"]) := by
  decide

/-- C8, amended: `Device::set_command` delegates to the placeholder
`set_str_slice`, which returns `Ok(())` and performs no write at all: the
write trace of `set_command(command)` is empty for every device and command,
so in particular nothing is written (and nothing appended). -/
theorem c8_set_command_no_write (d : Device) (command : String) :
    d.set_command command = (Except.ok (), ([] : List String)) :=
  rfl

/-- C9, confirmed: `Driver::new` constructs an empty attribute cache, no
operation ever inserts into it (`get_attribute`, the only other `Driver`
operation, is a pure lookup performing zero opens), and therefore on a
freshly constructed `Driver` every attribute name misses the cache and
`get_attribute` terminates in the internal-error panic (`none`) rather than
opening the attribute. -/
theorem c9_cache_never_populated :
    Driver.new.attributes = [] ∧
    (∀ name : String, Driver.new.get_attribute name = none) ∧
    (∀ name : String, Driver.get_attribute_opens Driver.new name = 0) :=
  ⟨rfl, fun _ => rfl, fun _ => rfl⟩

/-- C10, confirmed: every `Attribute` write operation — `set::<T>`,
`set_str`, `set_str_slice` — unconditionally returns `Ok(())` for every
input value and performs no underlying file write (empty write trace), so no
write can ever surface an `IoError` to the caller. -/
theorem c10_writes_noop {T : Type} (a : Attribute) (to_string : T → String)
    (v : T) (s t : String) :
    a.set to_string v = (Except.ok (), ([] : List String)) ∧
    a.set_str s = (Except.ok (), ([] : List String)) ∧
    a.set_str_slice t = (Except.ok (), ([] : List String)) :=
  ⟨rfl, rfl, rfl⟩

end Ev3
